import Mathlib

/-!
Verification development for `cxsi.py` (CxSAST scan usage insight).

The script ingests a list of scan records and produces an Excel workbook with
a `Scans` data-table sheet and a `Summary` sheet.  This file gives a shallow
embedding of the core pipeline:

* the language-column registry (`init_lang_columns`),
* the record normalizer (`convert_json_scan`, built from an ordered-dict
  model `upsert`/`addLangs`),
* the table schema builder (`init_scans_ws_options` with its literal
  formula strings, plus an evaluable AST for the `ScanDuration` formula),
* the sheet writer (`rowWrites` models `Worksheet.write`, which silently
  rejects negative column indices and stores nothing for a `None` value
  written without a format, per xlsxwriter's bounds check in
  `Worksheet._check_dimensions` and `write_blank`),
* the summary sheet writes (`summaryRows`), and
* the run driver (`runCxsi`), which models `cxsi`'s control flow: the
  output-conflict check in `create_scans_wb`, the load step, the
  row-writing loop, and the `try/except` in `cxsi` that catches any
  in-pipeline exception, logs it and returns normally (so the click
  command exits with status 0 and the workbook is never closed).

Timestamps are modelled as already-parsed Excel serial numbers (`ℚ`);
`dateutil.parser.parse` is an external collaborator and no claim below
depends on the textual parsing step.  The JSON loader is likewise external:
`RunEnv.loadResult` is either the loaded record list or the loader's
failure (exit code 2 for a missing/empty file, 3 for malformed JSON).
xlsxwriter writes the target file only when `Workbook.close()` runs, which
is what `RunResult.wbClosed` / `RunResult.artifact` record.
-/

/-- One cell value as stored by xlsxwriter: a number (ids, counts, flags and
date-time serials), a text string, a formula string, or Python `None`. -/
inductive CellValue where
  | num : ℚ → CellValue
  | str : String → CellValue
  | formula : String → CellValue
  | blank : CellValue
deriving DecidableEq, Repr

/-- Is the cell a numeric cell (what Excel's `COUNT` counts)? -/
def CellValue.isNum : CellValue → Bool
  | .num _ => true
  | _ => false

/-- One entry of a normalized scan row: the dict value
`{'value': ..., 'col': ...}` from `convert_json_scan`. -/
structure Cell where
  value : CellValue
  col : Int
deriving DecidableEq, Repr

/-- A normalized scan row: the `OrderedDict` built by `convert_json_scan`,
keyed by column name. -/
abbrev ScanRow := List (String × Cell)

/-- One input scan record, with the fields `convert_json_scan` reads.
Timestamps are Excel serial numbers (parsing is external, see the header
comment); `ScannedLanguages` is the list of `LanguageName` entries. -/
structure ScanRecord where
  Id : Int
  ProjectName : String
  OwningTeamId : String
  TeamName : String
  EngineServerId : Int
  Origin : String
  PresetName : String
  IsIncremental : Bool
  LOC : Int
  FailedLOC : Int
  FileCount : Int
  ScanRequestedOn : ℚ
  QueuedOn : ℚ
  EngineStartedOn : ℚ
  EngineFinishedOn : ℚ
  ScanCompletedOn : ℚ
  High : Int
  Medium : Int
  Low : Int
  Info : Int
  ProductVersion : String
  IsLocked : Bool
  IsPublic : Bool
  ScannedLanguages : List String
deriving DecidableEq, Repr

/-- One registry entry value: `{'col': ..., 'hidden': ...}`. -/
structure LangCol where
  col : Int
  hidden : Nat
deriving DecidableEq, Repr

def DEFAULT_HIDE : Nat := 0

/-- The language column registry of `init_lang_columns`: language name to
column position (33..51) or the untracked sentinel -1. -/
def init_lang_columns : List (String × LangCol) := [
  (("Apex"), ⟨33, DEFAULT_HIDE⟩),
  (("ASP"), ⟨34, DEFAULT_HIDE⟩),
  (("Cobol"), ⟨35, DEFAULT_HIDE⟩),
  (("CPP"), ⟨36, DEFAULT_HIDE⟩),
  (("CSharp"), ⟨37, DEFAULT_HIDE⟩),
  (("Groovy"), ⟨38, DEFAULT_HIDE⟩),
  (("Go"), ⟨39, DEFAULT_HIDE⟩),
  (("Java"), ⟨40, DEFAULT_HIDE⟩),
  (("JavaScript"), ⟨41, DEFAULT_HIDE⟩),
  (("Kotlin"), ⟨42, DEFAULT_HIDE⟩),
  (("Objc"), ⟨43, DEFAULT_HIDE⟩),
  (("PHP"), ⟨44, DEFAULT_HIDE⟩),
  (("Perl"), ⟨45, DEFAULT_HIDE⟩),
  (("Python"), ⟨46, DEFAULT_HIDE⟩),
  (("Ruby"), ⟨47, DEFAULT_HIDE⟩),
  (("Scala"), ⟨48, DEFAULT_HIDE⟩),
  (("Typescript"), ⟨49, DEFAULT_HIDE⟩),
  (("VbNet"), ⟨50, DEFAULT_HIDE⟩),
  (("VB6"), ⟨51, DEFAULT_HIDE⟩),
  (("Common"), ⟨-1, DEFAULT_HIDE⟩),
  (("PLSQL"), ⟨-1, DEFAULT_HIDE⟩),
  (("VbScript"), ⟨-1, DEFAULT_HIDE⟩),
  (("Unknown"), ⟨-1, DEFAULT_HIDE⟩)]

/-- The fixed cells of `convert_json_scan`'s `scan_row` OrderedDict, in
source order.  `ProjectId` has value `None`. -/
def fixedCells (scan : ScanRecord) : ScanRow := [
  (("ScanId"), ⟨.num scan.Id, 0⟩),
  (("ProjectName"), ⟨.str scan.ProjectName, 1⟩),
  (("ProjectId"), ⟨.blank, 2⟩),
  (("TeamId"), ⟨.str scan.OwningTeamId, 3⟩),
  (("Team"), ⟨.str scan.TeamName, 4⟩),
  (("EngineId"), ⟨.num scan.EngineServerId, 5⟩),
  (("Origin"), ⟨.str scan.Origin, 6⟩),
  (("Preset"), ⟨.str scan.PresetName, 7⟩),
  (("Incr"), ⟨.num (if scan.IsIncremental then 1 else 0), 8⟩),
  (("LOC"), ⟨.num scan.LOC, 9⟩),
  (("FailedLOC"), ⟨.num scan.FailedLOC, 10⟩),
  (("FileCount"), ⟨.num scan.FileCount, 11⟩),
  (("ScanRequestedOn"), ⟨.num scan.ScanRequestedOn, 12⟩),
  (("QueuedOn"), ⟨.num scan.QueuedOn, 13⟩),
  (("EngineStartedOn"), ⟨.num scan.EngineStartedOn, 14⟩),
  (("EngineFinishedOn"), ⟨.num scan.EngineFinishedOn, 15⟩),
  (("ScanCompletedOn"), ⟨.num scan.ScanCompletedOn, 16⟩),
  (("High"), ⟨.num scan.High, 26⟩),
  (("Med"), ⟨.num scan.Medium, 27⟩),
  (("Low"), ⟨.num scan.Low, 28⟩),
  (("Info"), ⟨.num scan.Info, 29⟩),
  (("Version"), ⟨.str scan.ProductVersion, 30⟩),
  (("Locked"), ⟨.num (if scan.IsLocked then 1 else 0), 31⟩),
  (("Public"), ⟨.num (if scan.IsPublic then 1 else 0), 32⟩)]

/-- The keys of the fixed cells, in order. -/
def fixedKeys : List String :=
  [("ScanId"), ("ProjectName"), ("ProjectId"), ("TeamId"), ("Team"),
   ("EngineId"), ("Origin"), ("Preset"), ("Incr"), ("LOC"), ("FailedLOC"),
   ("FileCount"), ("ScanRequestedOn"), ("QueuedOn"), ("EngineStartedOn"),
   ("EngineFinishedOn"), ("ScanCompletedOn"), ("High"), ("Med"), ("Low"),
   ("Info"), ("Version"), ("Locked"), ("Public")]

/-- The column indices of the fixed cells, in order. -/
def fixedColInts : List Int :=
  [0, 1, 2, 3, 4, 5, 6, 7, 8, 9, 10, 11, 12, 13, 14, 15, 16,
   26, 27, 28, 29, 30, 31, 32]

/-- Ordered-dict assignment `d[k] = c`: replace the entry of an existing
key in place, otherwise append at the end. -/
def upsert : ScanRow → String → Cell → ScanRow
  | [], k, c => [(k, c)]
  | p :: t, k, c => if p.1 = k then (k, c) :: t else p :: upsert t k c

/-- The language loop of `convert_json_scan`: look each scanned language up
in the registry (a missing key raises `KeyError`, modelled as `none`) and
store `{'value': 1, 'col': lang_col['col']}` under the language name. -/
def addLangs (langCols : List (String × LangCol)) : ScanRow → List String → Option ScanRow
  | row, [] => some row
  | row, l :: ls =>
    match List.lookup l langCols with
    | some lc => addLangs langCols (upsert row l ⟨.num 1, lc.col⟩) ls
    | none => none

/-- `convert_json_scan`: the fixed cells followed by one presence-flag cell
per scanned language; fails (KeyError) on a language absent from the
registry. -/
def convert_json_scan (scan : ScanRecord) (langCols : List (String × LangCol)) :
    Option ScanRow :=
  addLangs langCols (fixedCells scan) scan.ScannedLanguages

/-- One performed sheet write: `ws.write(row, col, value)` that passed
xlsxwriter's checks and actually stored a cell. -/
structure WriteOp where
  row : Nat
  col : Nat
  value : CellValue
deriving DecidableEq, Repr

/-- The writes performed for one normalized row at sheet row `r`
(`write_scans_ws`'s inner loop).  xlsxwriter's `Worksheet.write` silently
returns -1 for an out-of-range column (in particular the untracked
sentinel -1) and stores nothing for a `None` value written without a
format, so those cells produce no write. -/
def rowWrites (r : Nat) (row : ScanRow) : List WriteOp :=
  row.filterMap fun p =>
    if p.2.value = CellValue.blank then none
    else if 0 ≤ p.2.col ∧ p.2.col < 16384 then
      some ⟨r, p.2.col.toNat, p.2.value⟩
    else none

def TABLE_TOP_ROWS : Nat := 2

def SCANS_TABLE_NAME : String := "AllScans"

/-- The data-row loop of `write_scans_ws`: convert each scan and write its
cells at sheet row `i + TABLE_TOP_ROWS`.  Returns the writes performed and
whether the loop ran to completion; a record whose conversion fails raises
`KeyError`, so the writes of all earlier records stand and the flag is
`false`. -/
def writeScansLoop : List ScanRecord → Nat → List WriteOp × Bool
  | [], _ => ([], true)
  | s :: rest, i =>
    match convert_json_scan s init_lang_columns with
    | none => ([], false)
    | some row =>
      let res := writeScansLoop rest (i + 1)
      (rowWrites (i + TABLE_TOP_ROWS) row ++ res.1, res.2)

/-- The `table_range` string `'A{}:AX{}'.format(TABLE_TOP_ROWS,
TABLE_TOP_ROWS + num_scans)` of `write_scans_ws`: one-based rows 2 through
`2 + N`, i.e. a header row at one-based row 2 and `N` data rows below it. -/
def table_range (numScans : Nat) : String :=
  ("A") ++ toString TABLE_TOP_ROWS ++ (":AX") ++ toString (TABLE_TOP_ROWS + numScans)

/-- A workbook format descriptor property value (`init_wb_formats` passes
dicts whose values are booleans, numbers or strings). -/
inductive PropVal where
  | pb : Bool → PropVal
  | pn : Int → PropVal
  | ps : String → PropVal
deriving DecidableEq, Repr

/-- The format registry of `init_wb_formats`, key to property dict.
`'integer'` and `'long'` use the built-in numeric formats `0x01`/`0x03`. -/
def init_wb_formats : List (String × List (String × PropVal)) := [
  (("general"), []),
  (("header"), [(("bold"), .pb true), (("text_wrap"), .pb false)]),
  (("summary header"), [(("bold"), .pb true), (("align"), .ps ("center"))]),
  (("bold"), [(("bold"), .pb true)]),
  (("center"), [(("align"), .ps ("center"))]),
  (("right"), [(("align"), .ps ("right"))]),
  (("date"), [(("num_format"), .ps ("mm/dd/yyyy"))]),
  (("datetime"), [(("num_format"), .ps ("yyyy-mm-dd hh:mm:ss"))]),
  (("date bold"), [(("bold"), .pb true), (("num_format"), .ps ("mm/dd/yyyy"))]),
  (("duration"), [(("num_format"), .ps ("[h]:mm:ss"))]),
  (("duration bold"), [(("bold"), .pb true), (("num_format"), .ps ("[h]:mm:ss"))]),
  (("percent"), [(("num_format"), .ps ("0%"))]),
  (("decimal 2"), [(("num_format"), .ps ("0.00"))]),
  (("integer"), [(("num_format"), .pn 1)]),
  (("long"), [(("num_format"), .pn 3)]),
  (("header_color"), [(("bold"), .pn 1), (("bg_color"), .ps ("#4F81BD")),
    (("font_color"), .ps ("#FFFFFF")), (("border_color"), .ps ("#EEECE1")),
    (("bottom"), .pn 1)]),
  (("bad"), [(("bg_color"), .ps ("#FFC7CE")), (("font_color"), .ps ("#9C0006"))]),
  (("neutral"), [(("bg_color"), .ps ("#FFEB9C")), (("font_color"), .ps ("#9C6500"))]),
  (("good"), [(("bg_color"), .ps ("#C6EFCE")), (("font_color"), .ps ("#006100"))]),
  (("inverse"), [(("bg_color"), .ps ("#000000")), (("font_color"), .ps ("#FFFFFF"))]),
  (("header_merge"), [(("bold"), .pn 1), (("border"), .pn 1),
    (("align"), .ps ("center")), (("valign"), .ps ("vcenter")),
    (("fg_color"), .ps ("#4F81BD")), (("font_color"), .ps ("#FFFFFF")),
    (("border_color"), .ps ("#EEECE1"))])]

/-- One column descriptor of the `add_table` options: header label, format
key (into `init_wb_formats`), width, and optional formula string. -/
structure ColumnDef where
  header : String
  format : String
  width : Nat
  formula : Option String
deriving DecidableEq, Repr

def DEFAULT_COL_WIDTH : Nat := 10
def DEFAULT_DATE_WIDTH : Nat := 18
def DEFAULT_DURATION_WIDTH : Nat := 14
def DEFAULT_RATE_WIDTH : Nat := 12
def DEFAULT_RESULT_WIDTH : Nat := 8
def DEFAULT_LANG_WIDTH : Nat := 8

/-- The 33 fixed column descriptors of `init_scans_ws_options`, in source
order, with the literal formula strings of the nine formula-bound columns
(indices 17..25). -/
def fixedColumnDefs : List ColumnDef := [
  ⟨("ScanId"), ("integer"), DEFAULT_COL_WIDTH, none⟩,
  ⟨("ProjectName"), ("general"), 30, none⟩,
  ⟨("ProjectId"), ("integer"), DEFAULT_COL_WIDTH, none⟩,
  ⟨("TeamId"), ("general"), 36, none⟩,
  ⟨("Team"), ("general"), 15, none⟩,
  ⟨("EngineId"), ("integer"), DEFAULT_COL_WIDTH, none⟩,
  ⟨("Origin"), ("general"), DEFAULT_COL_WIDTH, none⟩,
  ⟨("Preset"), ("general"), 28, none⟩,
  ⟨("Incr"), ("integer"), 8, none⟩,
  ⟨("LOC"), ("integer"), DEFAULT_COL_WIDTH, none⟩,
  ⟨("FailedLOC"), ("integer"), 11, none⟩,
  ⟨("FileCount"), ("integer"), DEFAULT_COL_WIDTH, none⟩,
  ⟨("ScanRequestedOn"), ("datetime"), DEFAULT_DATE_WIDTH, none⟩,
  ⟨("QueuedOn"), ("datetime"), DEFAULT_DATE_WIDTH, none⟩,
  ⟨("EngineStartedOn"), ("datetime"), DEFAULT_DATE_WIDTH, none⟩,
  ⟨("EngineFinishedOn"), ("datetime"), DEFAULT_DATE_WIDTH, none⟩,
  ⟨("ScanCompletedOn"), ("datetime"), DEFAULT_DATE_WIDTH, none⟩,
  ⟨("ScanDuration"), ("duration"), DEFAULT_DURATION_WIDTH,
    some ("=IF([@ScanCompletedOn]>0,[@ScanCompletedOn]-[@ScanRequestedOn],0)")⟩,
  ⟨("SourceTime"), ("duration"), DEFAULT_DURATION_WIDTH,
    some ("=[@QueuedOn]-[@ScanRequestedOn]")⟩,
  ⟨("QueuedTime"), ("duration"), DEFAULT_DURATION_WIDTH,
    some ("=IF([@EngineStartedOn]>0,[@EngineStartedOn]-[@QueuedOn],0)")⟩,
  ⟨("EngineTime"), ("duration"), DEFAULT_DURATION_WIDTH,
    some ("=IF([@EngineFinishedOn]>0,[@EngineFinishedOn]-[@QueuedOn],0)")⟩,
  ⟨("ScanHours"), ("decimal 2"), DEFAULT_COL_WIDTH,
    some ("=[@ScanDuration]*24")⟩,
  ⟨("Weekday"), ("integer"), DEFAULT_COL_WIDTH,
    some ("=WEEKDAY([@ScanRequestedOn])")⟩,
  ⟨("FullSpeed"), ("integer"), DEFAULT_RATE_WIDTH,
    some ("=IF(AND([@ScanDuration]>0,[@Incr]=0),[@LOC]/([@ScanDuration]*24),0)")⟩,
  ⟨("IncrSpeed"), ("integer"), DEFAULT_RATE_WIDTH,
    some ("=IF(AND([@ScanDuration]>0,[@Incr]=1),[@LOC]/([@ScanDuration]*24),0)")⟩,
  ⟨("Results"), ("integer"), DEFAULT_RESULT_WIDTH,
    some ("=SUM([@High],[@Med],[@Low],[@Info])")⟩,
  ⟨("High"), ("integer"), DEFAULT_RESULT_WIDTH, none⟩,
  ⟨("Med"), ("integer"), DEFAULT_RESULT_WIDTH, none⟩,
  ⟨("Low"), ("integer"), DEFAULT_RESULT_WIDTH, none⟩,
  ⟨("Info"), ("integer"), DEFAULT_RESULT_WIDTH, none⟩,
  ⟨("Version"), ("general"), 13, none⟩,
  ⟨("Locked"), ("integer"), 8, none⟩,
  ⟨("Public"), ("integer"), 8, none⟩]

/-- The `add_table` options dict: table name and column list. -/
structure TableOptions where
  name : String
  columns : List ColumnDef
deriving DecidableEq, Repr

/-- `init_scans_ws_options`: the 33 fixed columns followed by one column
per registry language with a valid (non-sentinel) index.  Note the
language columns come from the registry alone, not from the data. -/
def init_scans_ws_options (langCols : List (String × LangCol)) : TableOptions :=
  ⟨SCANS_TABLE_NAME,
   fixedColumnDefs ++
     (langCols.filter fun p => p.2.col > -1).map
       (fun p => ⟨p.1, ("integer"), DEFAULT_LANG_WIDTH, none⟩)⟩

/-- The column list actually used by `write_scans_ws`
(`init_scans_ws_options(init_lang_columns())`). -/
def scansColumns : List ColumnDef := (init_scans_ws_options init_lang_columns).columns

/-- An AST for the row-relative formulas bound by the schema builder, with
exact rendering to the source's formula strings and an evaluation
semantics over a row environment. -/
inductive CellFormula where
  | lit : Int → CellFormula
  | ref : String → CellFormula
  | sub : CellFormula → CellFormula → CellFormula
  | mul : CellFormula → CellFormula → CellFormula
  | div : CellFormula → CellFormula → CellFormula
  | gt : CellFormula → CellFormula → CellFormula
  | eqF : CellFormula → CellFormula → CellFormula
  | andF : CellFormula → CellFormula → CellFormula
  | ifF : CellFormula → CellFormula → CellFormula → CellFormula
  | sum4 : CellFormula → CellFormula → CellFormula → CellFormula → CellFormula
  | weekdayF : CellFormula → CellFormula
  | paren : CellFormula → CellFormula
deriving DecidableEq, Repr

/-- Render a formula AST to Excel text (the `[@Column]` structured-reference
syntax used by the schema builder). -/
def CellFormula.render : CellFormula → String
  | .lit n => toString n
  | .ref s => ("[@") ++ s ++ ("]")
  | .sub a b => a.render ++ ("-") ++ b.render
  | .mul a b => a.render ++ ("*") ++ b.render
  | .div a b => a.render ++ ("/") ++ b.render
  | .gt a b => a.render ++ (">") ++ b.render
  | .eqF a b => a.render ++ ("=") ++ b.render
  | .andF a b => ("AND(") ++ a.render ++ (",") ++ b.render ++ (")")
  | .ifF c a b => ("IF(") ++ c.render ++ (",") ++ a.render ++ (",") ++ b.render ++ (")")
  | .sum4 a b c d =>
      ("SUM(") ++ a.render ++ (",") ++ b.render ++ (",") ++ c.render ++ (",") ++
        d.render ++ (")")
  | .weekdayF a => ("WEEKDAY(") ++ a.render ++ (")")
  | .paren a => ("(") ++ a.render ++ (")")

/-- Render a full cell formula, with the leading `=`. -/
def CellFormula.renderTop (f : CellFormula) : String := ("=") ++ f.render

/-- Excel's default `WEEKDAY`: 1 (Sunday) .. 7 (Saturday) of a serial date. -/
def excelWeekday (q : ℚ) : ℚ := (((Int.floor q - 1) % 7 + 1 : ℤ) : ℚ)

/-- Evaluate a formula over a row environment mapping column names to
numeric values.  Comparisons and `AND` produce Excel booleans 1/0 and `IF`
tests its condition against 0. -/
def CellFormula.eval (env : String → ℚ) : CellFormula → ℚ
  | .lit n => n
  | .ref s => env s
  | .sub a b => a.eval env - b.eval env
  | .mul a b => a.eval env * b.eval env
  | .div a b => a.eval env / b.eval env
  | .gt a b => if b.eval env < a.eval env then 1 else 0
  | .eqF a b => if a.eval env = b.eval env then 1 else 0
  | .andF a b => if a.eval env ≠ 0 ∧ b.eval env ≠ 0 then 1 else 0
  | .ifF c a b => if c.eval env ≠ 0 then a.eval env else b.eval env
  | .sum4 a b c d => a.eval env + b.eval env + c.eval env + d.eval env
  | .weekdayF a => excelWeekday (a.eval env)
  | .paren a => a.eval env

/-- The `ScanDuration` formula as an AST:
`IF([@ScanCompletedOn]>0,[@ScanCompletedOn]-[@ScanRequestedOn],0)`. -/
def scanDurationF : CellFormula :=
  .ifF (.gt (.ref ("ScanCompletedOn")) (.lit 0))
    (.sub (.ref ("ScanCompletedOn")) (.ref ("ScanRequestedOn")))
    (.lit 0)

/-- One cell written on the `Summary` sheet: position, content and the
optional format key (`write_summary_info` writes the title with no format
and the statistic with `cell_format`, which defaults to none). -/
structure SummaryWrite where
  row : Nat
  col : Nat
  data : CellValue
  fmt : Option String
deriving DecidableEq, Repr

/-- The `'=COUNT({}[ScanId])'.format(TABLE)` total-scans statistic. -/
def scansCountFormula : String := ("=COUNT(") ++ SCANS_TABLE_NAME ++ ("[ScanId])")

/-- The customer-independent writes of `write_summary_ws`, in source order
(`row = 1`, `col = 1`; `write_summary_info(ws, r, c, title, data)` writes
the title at column `c` and the statistic at `c + 1`). -/
def summaryFixedRows : List SummaryWrite := [
  ⟨1, 1, .str ("Scans"), some ("summary header")⟩,
  ⟨1, 2, .str ("Stats"), some ("summary header")⟩,
  ⟨2, 1, .str ("Start Date"), none⟩,
  ⟨2, 2, .formula (("=MIN(") ++ SCANS_TABLE_NAME ++ ("[ScanRequestedOn])")),
    some ("datetime")⟩,
  ⟨3, 1, .str ("End Date"), none⟩,
  ⟨3, 2, .formula (("=MAX(") ++ SCANS_TABLE_NAME ++ ("[ScanRequestedOn])")),
    some ("datetime")⟩,
  ⟨4, 1, .str ("Days"), none⟩,
  ⟨4, 2, .formula (("=MAX(") ++ SCANS_TABLE_NAME ++ ("[ScanRequestedOn])-MIN(") ++
    SCANS_TABLE_NAME ++ ("[ScanRequestedOn])")), none⟩,
  ⟨5, 1, .str ("Weeks"), none⟩,
  ⟨5, 2, .formula (("=ROUNDUP((MAX(") ++ SCANS_TABLE_NAME ++
    ("[ScanRequestedOn])-MIN(") ++ SCANS_TABLE_NAME ++
    ("[ScanRequestedOn]))/7,0)")), none⟩,
  ⟨6, 1, .str ("Scans"), none⟩,
  ⟨6, 2, .formula scansCountFormula, none⟩,
  ⟨7, 1, .str ("Completed Scans"), none⟩,
  ⟨7, 2, .formula (("=COUNT(") ++ SCANS_TABLE_NAME ++ ("[ScanCompletedOn])")), none⟩,
  ⟨8, 1, .str ("Scans Inflight"), none⟩,
  ⟨8, 2, .formula (("=COUNT(") ++ SCANS_TABLE_NAME ++ ("[ScanId])-COUNT(") ++
    SCANS_TABLE_NAME ++ ("[ScanCompletedOn])")), none⟩,
  ⟨9, 1, .str ("Full Scans"), none⟩,
  ⟨9, 2, .formula (("=COUNTIF(") ++ SCANS_TABLE_NAME ++ ("[Incr],\"=0\")")), none⟩,
  ⟨10, 1, .str ("Incr Scans"), none⟩,
  ⟨10, 2, .formula (("=COUNTIF(") ++ SCANS_TABLE_NAME ++ ("[Incr],\"=1\")")), none⟩,
  ⟨10, 3, .formula (("=COUNTIF(") ++ SCANS_TABLE_NAME ++ ("[Incr],\"=1\")/COUNT(") ++
    SCANS_TABLE_NAME ++ ("[ScanId])")), some ("percent")⟩,
  ⟨11, 1, .str ("Avg Full Scan Rate"), none⟩,
  ⟨11, 2, .formula (("=AVERAGEIF(") ++ SCANS_TABLE_NAME ++ ("[FullSpeed],\"<>0\")")),
    none⟩,
  ⟨11, 3, .str ("LOC / Hr"), none⟩,
  ⟨12, 1, .str ("Avg Incr Scan Rate"), none⟩,
  ⟨12, 2, .formula (("=AVERAGEIFS(") ++ SCANS_TABLE_NAME ++ ("[IncrSpeed],") ++
    SCANS_TABLE_NAME ++ ("[Incr],\"=1 \")")), none⟩,
  ⟨12, 3, .str ("LOC / Hr"), none⟩,
  ⟨13, 1, .str ("Max Scan Rate"), none⟩,
  ⟨13, 2, .formula (("=MAX(") ++ SCANS_TABLE_NAME ++ ("[FullSpeed])")), none⟩,
  ⟨13, 3, .str ("LOC / Hr"), none⟩,
  ⟨14, 1, .str ("Avg Scans Per Day"), none⟩,
  ⟨14, 2, .formula (("=COUNT(") ++ SCANS_TABLE_NAME ++ ("[ScanId])/(MAX(") ++
    SCANS_TABLE_NAME ++ ("[ScanRequestedOn])-MIN(") ++ SCANS_TABLE_NAME ++
    ("[ScanRequestedOn]))")), none⟩,
  ⟨15, 1, .str ("   Sun"), none⟩,
  ⟨15, 2, .formula (("=COUNTIF(") ++ SCANS_TABLE_NAME ++ ("[Weekday],\"=1\")/((MAX(") ++
    SCANS_TABLE_NAME ++ ("[ScanRequestedOn])-MIN(") ++ SCANS_TABLE_NAME ++
    ("[ScanRequestedOn]))/7)")), none⟩,
  ⟨16, 1, .str ("   Mon"), none⟩,
  ⟨16, 2, .formula (("=COUNTIF(") ++ SCANS_TABLE_NAME ++ ("[Weekday],\"=2\")/((MAX(") ++
    SCANS_TABLE_NAME ++ ("[ScanRequestedOn])-MIN(") ++ SCANS_TABLE_NAME ++
    ("[ScanRequestedOn]))/7)")), none⟩,
  ⟨17, 1, .str ("   Tue"), none⟩,
  ⟨17, 2, .formula (("=COUNTIF(") ++ SCANS_TABLE_NAME ++ ("[Weekday],\"=3\")/((MAX(") ++
    SCANS_TABLE_NAME ++ ("[ScanRequestedOn])-MIN(") ++ SCANS_TABLE_NAME ++
    ("[ScanRequestedOn]))/7)")), none⟩,
  ⟨18, 1, .str ("   Wed"), none⟩,
  ⟨18, 2, .formula (("=COUNTIF(") ++ SCANS_TABLE_NAME ++ ("[Weekday],\"=4\")/((MAX(") ++
    SCANS_TABLE_NAME ++ ("[ScanRequestedOn])-MIN(") ++ SCANS_TABLE_NAME ++
    ("[ScanRequestedOn]))/7)")), none⟩,
  ⟨19, 1, .str ("   Thu"), none⟩,
  ⟨19, 2, .formula (("=COUNTIF(") ++ SCANS_TABLE_NAME ++ ("[Weekday],\"=5\")/((MAX(") ++
    SCANS_TABLE_NAME ++ ("[ScanRequestedOn])-MIN(") ++ SCANS_TABLE_NAME ++
    ("[ScanRequestedOn]))/7)")), none⟩,
  ⟨20, 1, .str ("   Fri"), none⟩,
  ⟨20, 2, .formula (("=COUNTIF(") ++ SCANS_TABLE_NAME ++ ("[Weekday],\"=6\")/((MAX(") ++
    SCANS_TABLE_NAME ++ ("[ScanRequestedOn])-MIN(") ++ SCANS_TABLE_NAME ++
    ("[ScanRequestedOn]))/7)")), none⟩,
  ⟨21, 1, .str ("   Sat"), none⟩,
  ⟨21, 2, .formula (("=COUNTIF(") ++ SCANS_TABLE_NAME ++ ("[Weekday],\"=7\")/((MAX(") ++
    SCANS_TABLE_NAME ++ ("[ScanRequestedOn])-MIN(") ++ SCANS_TABLE_NAME ++
    ("[ScanRequestedOn]))/7)")), none⟩]

/-- All writes of `write_summary_ws`: the customer title cell at A1
followed by the fixed statistic rows. -/
def summaryRows (cust : String) : List SummaryWrite :=
  ⟨0, 0, .str (cust ++ (" Scan Summary Info")), some ("bold")⟩ :: summaryFixedRows

/-- Number of numeric cells among the writes landing in sheet column `c`:
the semantics of `COUNT` over one column of the table's data region. -/
def countNumeric (ws : List WriteOp) (c : Nat) : Nat :=
  (ws.filter fun w => (w.col == c) && w.value.isNum).length

/-- Predicate for the `ScanId` (column 0) numeric cells. -/
def scanIdPred (w : WriteOp) : Bool := (w.col == 0) && w.value.isNum

/-- `[s, s+1, ..., s+n-1]`: the consecutive sheet rows a block of `n` data
rows occupies. -/
def rowSeq : Nat → Nat → List Nat
  | _, 0 => []
  | s, n + 1 => s :: rowSeq (s + 1) n

/-- The script arguments `runCxsi` reads (customer name and the `-f`
overwrite flag; file names and the debug flag do not affect the artifact). -/
structure Args where
  customer : String
  force : Bool
deriving DecidableEq, Repr

/-- A load failure reported by `load_json`: missing/empty data file
(`exit_script(2)`) or a JSON decode error (`exit_script(3)`). -/
inductive LoadError where
  | missingOrEmpty : LoadError
  | badJson : LoadError
deriving DecidableEq, Repr

/-- The exit code `load_json` passes to `exit_script`. -/
def LoadError.code : LoadError → Nat
  | .missingOrEmpty => 2
  | .badJson => 3

/-- The run-varying environment of one invocation: arguments, whether the
output file already exists, whether `os.remove` succeeds, the loader's
outcome, and two clock readings (the `timeit` timer observations, which
vary between runs and must not influence the artifact). -/
structure RunEnv where
  args : Args
  fileExists : Bool
  removeOk : Bool
  loadResult : Except LoadError (List ScanRecord)
  timerStart : Nat
  timerEnd : Nat

/-- The scans named-table object passed to `add_table`. -/
structure TableDef where
  name : String
  range : String
  columns : List ColumnDef
deriving DecidableEq, Repr

/-- The content of the output workbook as committed by `Workbook.close()`:
document properties, sheets with tab colors, the format registry, the
`Scans` sheet's merged group headers, named table and data writes, and the
`Summary` sheet's writes. -/
structure Artifact where
  properties : List (String × String)
  sheets : List (String × String)
  formats : List (String × List (String × PropVal))
  scansMerges : List (String × String)
  scansTable : Option TableDef
  scansData : List WriteOp
  summaryWrites : List SummaryWrite
deriving DecidableEq, Repr

/-- `Workbook.set_properties` values from `create_scans_wb`. -/
def wbProperties (cust : String) : List (String × String) := [
  (("title"), cust ++ (" CxSAST Usage")),
  (("subject"), ("Scan usage workbook")),
  (("author"), ("Randy Geyer")),
  (("company"), ("Checkmarx")),
  (("comments"), ("Created with Python and XlsxWriter"))]

/-- The worksheets created by `init_workbook`, with tab colors. -/
def wbSheets : List (String × String) := [(("Summary"), ("green")), (("Scans"), ("yellow"))]

/-- The sheet names, in creation order. -/
def wbSheetNames : List String := [("Summary"), ("Scans")]

/-- The merged group-header ranges of `write_scans_ws`. -/
def scansMergeList : List (String × String) := [
  (("M1:Q1"), ("Date Timestamps")),
  (("R1:V1"), ("Durations")),
  (("W1:Y1"), ("Rates per hour")),
  (("Z1:AD1"), ("Result counts")),
  (("AH1:AX1"), ("Languages"))]

/-- The artifact committed when the workbook is closed before
`write_scans_ws` ran (the load-failure abort path): sheets and formats
exist but no table, no data and no summary. -/
def emptyArtifact (cust : String) : Artifact :=
  ⟨wbProperties cust, wbSheets, init_wb_formats, [], none, [], []⟩

/-- The artifact committed on the success path. -/
def fullArtifact (cust : String) (scans : List ScanRecord) (writes : List WriteOp) :
    Artifact :=
  ⟨wbProperties cust, wbSheets, init_wb_formats, scansMergeList,
   some ⟨SCANS_TABLE_NAME, table_range scans.length, scansColumns⟩,
   writes, summaryRows cust⟩

/-- Observable outcome of one run: process exit status, whether the
`Workbook` object was constructed, whether `close()` ran (xlsxwriter only
writes the output file then), sheets created, the data writes performed
before any abort, whether the summary was written, and the committed
artifact (`none` when no file was produced). -/
structure RunResult where
  exitCode : Nat
  wbCreated : Bool
  wbClosed : Bool
  sheetsCreated : List String
  scansDataWrites : List WriteOp
  summaryWritten : Bool
  artifact : Option Artifact
deriving DecidableEq, Repr

/-- The pipeline from `load_json` on, after the workbook and sheets exist:
a load failure goes through `exit_script(code)`, which closes the workbook
and therefore commits an empty artifact; on loaded data the row loop runs,
then the summary, then `exit_script()` closes with status 0.  If a record
fails to normalize, the `KeyError` propagates into `cxsi`'s
`except Exception` handler, which logs it and returns normally: the click
command then exits with status 0 and the workbook is never closed, so no
artifact is committed. -/
def runAfterCreate (env : RunEnv) : RunResult :=
  match env.loadResult with
  | .error e => ⟨e.code, true, true, wbSheetNames, [], false,
      some (emptyArtifact env.args.customer)⟩
  | .ok scans =>
    if (writeScansLoop scans 0).2 then
      ⟨0, true, true, wbSheetNames, (writeScansLoop scans 0).1, true,
       some (fullArtifact env.args.customer scans (writeScansLoop scans 0).1)⟩
    else
      ⟨0, true, false, wbSheetNames, (writeScansLoop scans 0).1, false, none⟩

/-- The whole run, `cxsi`'s control flow.  `create_scans_wb` runs first
(inside `init_workbook`, before any sheet is created): an existing output
file without `-force` aborts with `exit_script(1)`, and a failing
`os.remove` under `-force` aborts with `exit_script(4)`; in both cases no
workbook object exists yet, so nothing is closed and no file is touched
(click opens the output argument lazily). -/
def runCxsi (env : RunEnv) : RunResult :=
  if env.fileExists then
    if env.args.force then
      if env.removeOk then runAfterCreate env
      else ⟨4, false, false, [], [], false, none⟩
    else ⟨1, false, false, [], [], false, none⟩
  else runAfterCreate env

/-- Whether `create_scans_wb` gets past the output-conflict check (no
existing file, or `-force` with a successful `os.remove`). -/
def wbPasses (env : RunEnv) : Bool :=
  !env.fileExists || (env.args.force && env.removeOk)

/-- Whether the pipeline after workbook creation reaches `exit_script` (and
hence `Workbook.close`): always on a load failure, and on loaded data
exactly when every record normalizes. -/
def loadFinalizes (env : RunEnv) : Bool :=
  match env.loadResult with
  | .error _ => true
  | .ok scans => (writeScansLoop scans 0).2

/-- A well-formed sample record (languages `Java` and `Unknown`; the
serials are May 2019 dates). -/
def sampleScan : ScanRecord :=
  ⟨100, ("projA"), ("team-1"), ("TeamA"), 1, ("cli"), ("Default"), false,
   1000, 0, 10, 43586, (43586 + 1/24), (43586 + 2/24), (43586 + 3/24),
   (43586 + 4/24), 1, 2, 3, 4, ("9.0"), false, true,
   [("Java"), ("Unknown")]⟩

/-- The normalized row of `sampleScan`. -/
def sampleRow : ScanRow := (convert_json_scan sampleScan init_lang_columns).getD []

/-- A record referencing a language absent from the registry. -/
def fortranScan : ScanRecord :=
  ⟨101, ("projB"), ("team-2"), ("TeamB"), 2, ("cli"), ("Default"), false,
   500, 0, 5, 43590, 43590, 43590, 43590, 43591, 0, 0, 0, 0, ("9.0"),
   false, false, [("Fortran")]⟩

/-- A record whose language-usage list is empty. -/
def noLangScan : ScanRecord :=
  ⟨102, ("projC"), ("team-3"), ("TeamC"), 3, ("cli"), ("Default"), true,
   200, 0, 2, 43600, 43600, 43600, 43600, 0, 0, 0, 0, 0, ("9.0"),
   false, false, []⟩

/-- A record whose only scanned language is the untracked `Unknown`. -/
def unknownOnlyScan : ScanRecord :=
  ⟨103, ("projD"), ("team-4"), ("TeamD"), 4, ("cli"), ("Default"), false,
   300, 0, 3, 43610, 43610, 43610, 43610, 43611, 0, 1, 0, 0, ("9.0"),
   true, false, [("Unknown")]⟩

/-- Environment of a run whose record set contains `fortranScan`. -/
def envFortran : RunEnv :=
  ⟨⟨("ACME"), false⟩, false, true, .ok [fortranScan], 0, 0⟩

/-- Environment of a run whose data file is missing or empty. -/
def envLoadFail : RunEnv :=
  ⟨⟨("ACME"), false⟩, false, true, .error .missingOrEmpty, 0, 0⟩

/-- Environment of a run hitting the output-file conflict. -/
def envConflict : RunEnv :=
  ⟨⟨("ACME"), false⟩, true, true, .ok [sampleScan], 0, 0⟩

/-- The number of tracked languages that occur in at least one record's
usage list — the data-dependent count `K` that the specification claims
determines the number of language columns. -/
def usedTrackedLangCount (scans : List ScanRecord) : Nat :=
  (init_lang_columns.filter fun p =>
    (p.2.col > -1) ∧ scans.any fun s => s.ScannedLanguages.contains p.1).length

/-! ### Helper lemmas about the registry, ordered-dict updates and writes -/

theorem lookup_mem {k : String} {v : LangCol} :
    ∀ {l : List (String × LangCol)}, List.lookup k l = some v → (k, v) ∈ l := by
  intro l
  induction l with
  | nil => intro h; simp [List.lookup] at h
  | cons p t ih =>
    obtain ⟨a, b⟩ := p
    intro h
    rw [List.lookup] at h
    cases hab : (k == a) with
    | true =>
      rw [hab] at h
      have hk : k = a := eq_of_beq hab
      have hv : b = v := Option.some.inj h
      rw [hk, hv]
      exact List.mem_cons_self _ _
    | false =>
      rw [hab] at h
      exact List.mem_cons_of_mem _ (ih h)

theorem reg_cols : ∀ p ∈ init_lang_columns,
    p.2.col = -1 ∨ (33 ≤ p.2.col ∧ p.2.col ≤ 51) := by decide

theorem reg_tracked_inj : ∀ p ∈ init_lang_columns, ∀ q ∈ init_lang_columns,
    0 ≤ p.2.col → 0 ≤ q.2.col → p.2.col = q.2.col → p.1 = q.1 := by decide

theorem reg_not_fixed : ∀ p ∈ init_lang_columns, p.1 ∉ fixedKeys := by decide

theorem fixedColInts_spec : ∀ c ∈ fixedColInts,
    (0 ≤ c ∧ c ≤ 16) ∨ (26 ≤ c ∧ c ≤ 32) := by decide

theorem fixedCells_keys (scan : ScanRecord) :
    (fixedCells scan).map Prod.fst = fixedKeys := rfl

theorem fixedCells_cols (scan : ScanRecord) :
    (fixedCells scan).map (fun p => p.2.col) = fixedColInts := rfl

theorem mem_fixedCells_col {scan : ScanRecord} {p : String × Cell}
    (hp : p ∈ fixedCells scan) : p.2.col ∈ fixedColInts := by
  have := List.mem_map_of_mem (fun q => q.2.col) hp
  rwa [fixedCells_cols] at this

theorem mem_fixedCells_key {scan : ScanRecord} {p : String × Cell}
    (hp : p ∈ fixedCells scan) : p.1 ∈ fixedKeys := by
  have := List.mem_map_of_mem Prod.fst hp
  rwa [fixedCells_keys] at this

theorem upsert_mem {row : ScanRow} {k : String} {c : Cell} :
    ∀ q ∈ upsert row k c, q = (k, c) ∨ q ∈ row := by
  induction row with
  | nil => intro q hq; rw [upsert] at hq; exact Or.inl (List.mem_singleton.mp hq)
  | cons p t ih =>
    intro q hq
    rw [upsert] at hq
    by_cases hpk : p.1 = k
    · rw [if_pos hpk] at hq
      rcases List.mem_cons.mp hq with h | h
      · exact Or.inl h
      · exact Or.inr (List.mem_cons_of_mem _ h)
    · rw [if_neg hpk] at hq
      rcases List.mem_cons.mp hq with h | h
      · exact Or.inr (h ▸ List.mem_cons_self _ _)
      · rcases ih q h with h2 | h2
        · exact Or.inl h2
        · exact Or.inr (List.mem_cons_of_mem _ h2)

theorem upsert_keys {row : ScanRow} {k : String} {c : Cell} :
    ∀ p ∈ row, ∃ q ∈ upsert row k c, q.1 = p.1 := by
  induction row with
  | nil => intro p hp; exact absurd hp (List.not_mem_nil p)
  | cons a t ih =>
    intro p hp
    rw [upsert]
    by_cases hak : a.1 = k
    · rw [if_pos hak]
      rcases List.mem_cons.mp hp with h | h
      · exact ⟨(k, c), List.mem_cons_self _ _, by rw [h, hak]⟩
      · exact ⟨p, List.mem_cons_of_mem _ h, rfl⟩
    · rw [if_neg hak]
      rcases List.mem_cons.mp hp with h | h
      · exact ⟨a, List.mem_cons_self _ _, by rw [h]⟩
      · obtain ⟨q, hq, hq1⟩ := ih p h
        exact ⟨q, List.mem_cons_of_mem _ hq, hq1⟩

theorem upsert_key_self {k : String} {c : Cell} :
    ∀ (row : ScanRow), ∃ q ∈ upsert row k c, q.1 = k := by
  intro row
  induction row with
  | nil => exact ⟨(k, c), by rw [upsert]; exact List.mem_singleton.mpr rfl, rfl⟩
  | cons a t ih =>
    by_cases hak : a.1 = k
    · rw [upsert, if_pos hak]
      exact ⟨(k, c), List.mem_cons_self _ _, rfl⟩
    · rw [upsert, if_neg hak]
      obtain ⟨q, hq, h1⟩ := ih
      exact ⟨q, List.mem_cons_of_mem _ hq, h1⟩

theorem upsert_append {A : ScanRow} {k : String} {c : Cell} (B : ScanRow)
    (hA : ∀ p ∈ A, p.1 ≠ k) : upsert (A ++ B) k c = A ++ upsert B k c := by
  induction A with
  | nil => simp
  | cons a t ih =>
    have ha : a.1 ≠ k := hA a (List.mem_cons_self _ _)
    rw [List.cons_append, upsert, if_neg ha,
      ih (fun p hp => hA p (List.mem_cons_of_mem _ hp)), List.cons_append]

/-- The invariant of the language cells accumulated past the fixed cells:
every entry satisfies `Q` on its key, and its cell is the presence flag at
the registry column of that key. -/
def TailGood (Q : String → Prop) (tail : ScanRow) : Prop :=
  ∀ p ∈ tail, Q p.1 ∧ ∃ lc, List.lookup p.1 init_lang_columns = some lc ∧
    p.2 = ⟨CellValue.num 1, lc.col⟩

theorem tailGood_upsert {Q : String → Prop} {tail : ScanRow} {l : String}
    {lc : LangCol} (hQ : Q l) (hl : List.lookup l init_lang_columns = some lc)
    (ht : TailGood Q tail) :
    TailGood Q (upsert tail l ⟨CellValue.num 1, lc.col⟩) := by
  intro q hq
  rcases upsert_mem q hq with h | h
  · rw [h]; exact ⟨hQ, lc, hl, rfl⟩
  · exact ht q h

theorem addLangs_structure (Q : String → Prop) (scan : ScanRecord) :
    ∀ (langs : List String) (tail out : ScanRow),
      (∀ l ∈ langs, Q l) → TailGood Q tail →
      addLangs init_lang_columns (fixedCells scan ++ tail) langs = some out →
      ∃ tail2, out = fixedCells scan ++ tail2 ∧ TailGood Q tail2 ∧
        (∀ p ∈ tail, ∃ q ∈ tail2, q.1 = p.1) ∧
        (∀ l ∈ langs, ∃ q ∈ tail2, q.1 = l) := by
  intro langs
  induction langs with
  | nil =>
    intro tail out hQ ht h
    rw [addLangs] at h
    have h2 : fixedCells scan ++ tail = out := Option.some.inj h
    exact ⟨tail, h2.symm, ht, fun p hp => ⟨p, hp, rfl⟩, by simp⟩
  | cons l ls ih =>
    intro tail out hQ ht h
    rw [addLangs] at h
    split at h
    case h_2 => exact absurd h (by simp)
    case h_1 lc hl =>
      have hnf : ∀ p ∈ fixedCells scan, p.1 ≠ l := by
        intro p hp heq
        have hm := lookup_mem hl
        exact reg_not_fixed _ hm (heq ▸ mem_fixedCells_key hp)
      rw [upsert_append _ hnf] at h
      have ht2 : TailGood Q (upsert tail l ⟨CellValue.num 1, lc.col⟩) :=
        tailGood_upsert (hQ l (List.mem_cons_self _ _)) hl ht
      obtain ⟨tail2, ho, hg, hk, hls⟩ :=
        ih _ out (fun x hx => hQ x (List.mem_cons_of_mem _ hx)) ht2 h
      refine ⟨tail2, ho, hg, ?_, ?_⟩
      · intro p hp
        obtain ⟨q, hq, h1⟩ := upsert_keys p hp
        obtain ⟨q2, hq2, h2⟩ := hk q hq
        exact ⟨q2, hq2, h2.trans h1⟩
      · intro x hx
        rcases List.mem_cons.mp hx with h1 | h1
        · obtain ⟨q, hq, hqk⟩ := upsert_key_self tail
          obtain ⟨q2, hq2, h2⟩ := hk q hq
          exact ⟨q2, hq2, h1 ▸ h2.trans hqk⟩
        · exact hls x h1

/-- Structure of every successfully normalized row: the fixed cells
followed by presence-flag cells whose keys are scanned languages, with at
least one entry per scanned language. -/
theorem convert_structure (scan : ScanRecord) (row : ScanRow)
    (h : convert_json_scan scan init_lang_columns = some row) :
    ∃ tail, row = fixedCells scan ++ tail ∧
      TailGood (fun l => l ∈ scan.ScannedLanguages) tail ∧
      ∀ l ∈ scan.ScannedLanguages, ∃ q ∈ tail, q.1 = l := by
  have h2 : addLangs init_lang_columns (fixedCells scan ++ [])
      scan.ScannedLanguages = some row := by
    rw [List.append_nil]; exact h
  obtain ⟨tail2, ho, hg, -, hl⟩ :=
    addLangs_structure (fun l => l ∈ scan.ScannedLanguages) scan
      scan.ScannedLanguages [] row (fun l hl => hl)
      (fun p hp => absurd hp (List.not_mem_nil p)) h2
  exact ⟨tail2, ho, hg, hl⟩

theorem addLangs_total (langCols : List (String × LangCol)) :
    ∀ (langs : List String) (row : ScanRow),
      (∀ l ∈ langs, (List.lookup l langCols).isSome = true) →
      (addLangs langCols row langs).isSome = true := by
  intro langs
  induction langs with
  | nil => intro row h; rw [addLangs]; rfl
  | cons l ls ih =>
    intro row h
    rw [addLangs]
    cases hl : List.lookup l langCols with
    | none =>
      have h2 := h l (List.mem_cons_self _ _)
      rw [hl] at h2
      exact absurd h2 (by simp)
    | some lc => exact ih _ (fun x hx => h x (List.mem_cons_of_mem _ hx))

theorem rowWrites_origin {r : Nat} {row : ScanRow} {w : WriteOp}
    (hw : w ∈ rowWrites r row) :
    ∃ p ∈ row, p.2.value ≠ CellValue.blank ∧ 0 ≤ p.2.col ∧ p.2.col < 16384 ∧
      w = ⟨r, p.2.col.toNat, p.2.value⟩ := by
  obtain ⟨p, hp, hf⟩ := List.mem_filterMap.mp hw
  refine ⟨p, hp, ?_⟩
  by_cases h1 : p.2.value = CellValue.blank
  · rw [if_pos h1] at hf
    exact absurd hf (by simp)
  · rw [if_neg h1] at hf
    by_cases h2 : 0 ≤ p.2.col ∧ p.2.col < 16384
    · rw [if_pos h2] at hf
      exact ⟨h1, h2.1, h2.2, (Option.some.inj hf).symm⟩
    · rw [if_neg h2] at hf
      exact absurd hf (by simp)

theorem mem_rowWrites {r : Nat} {row : ScanRow} {p : String × Cell}
    (hp : p ∈ row) (h1 : p.2.value ≠ CellValue.blank) (h2 : 0 ≤ p.2.col)
    (h3 : p.2.col < 16384) :
    (⟨r, p.2.col.toNat, p.2.value⟩ : WriteOp) ∈ rowWrites r row := by
  apply List.mem_filterMap.mpr
  exact ⟨p, hp, by rw [if_neg h1, if_pos ⟨h2, h3⟩]⟩

theorem rowWrites_row {r : Nat} {row : ScanRow} :
    ∀ w ∈ rowWrites r row, w.row = r := by
  intro w hw
  obtain ⟨p, hp, h1, h2, h3, h4⟩ := rowWrites_origin hw
  rw [h4]

theorem rowWrites_append (r : Nat) (A B : ScanRow) :
    rowWrites r (A ++ B) = rowWrites r A ++ rowWrites r B := by
  simp [rowWrites]

theorem tail_writes {Q : String → Prop} {tail : ScanRow} (ht : TailGood Q tail)
    (r : Nat) : ∀ w ∈ rowWrites r tail,
      33 ≤ w.col ∧ w.col ≤ 51 ∧ w.value = CellValue.num 1 := by
  intro w hw
  obtain ⟨p, hp, h1, h2, h3, h4⟩ := rowWrites_origin hw
  obtain ⟨-, lc, hl, hc⟩ := ht p hp
  have hpcol : p.2.col = lc.col := by rw [hc]
  have hpval : p.2.value = CellValue.num 1 := by rw [hc]
  rcases reg_cols _ (lookup_mem hl) with hneg | ⟨h33, h51⟩
  · exfalso
    have hneg2 : lc.col = -1 := hneg
    rw [hpcol, hneg2] at h2
    exact absurd h2 (by norm_num)
  · have h33b : (33 : Int) ≤ lc.col := h33
    have h51b : lc.col ≤ (51 : Int) := h51
    rw [h4]
    refine ⟨?_, ?_, hpval⟩
    · show 33 ≤ p.2.col.toNat
      rw [hpcol]; omega
    · show p.2.col.toNat ≤ 51
      rw [hpcol]; omega

theorem fixed_writes_col {scan : ScanRecord} {r : Nat} :
    ∀ w ∈ rowWrites r (fixedCells scan), w.col ≤ 32 := by
  intro w hw
  obtain ⟨p, hp, h1, h2, h3, h4⟩ := rowWrites_origin hw
  have hb := fixedColInts_spec _ (mem_fixedCells_col hp)
  rw [h4]
  show p.2.col.toNat ≤ 32
  omega

theorem fixed_scanId (scan : ScanRecord) (r : Nat) :
    (rowWrites r (fixedCells scan)).filter scanIdPred =
      [⟨r, 0, CellValue.num scan.Id⟩] := rfl

theorem row_scanId {scan : ScanRecord} {row : ScanRow} (r : Nat)
    (h : convert_json_scan scan init_lang_columns = some row) :
    (rowWrites r row).filter scanIdPred = [⟨r, 0, CellValue.num scan.Id⟩] := by
  obtain ⟨tail, ho, ht, -⟩ := convert_structure scan row h
  rw [ho, rowWrites_append, List.filter_append, fixed_scanId]
  have hnil : (rowWrites r tail).filter scanIdPred = [] := by
    rw [List.filter_eq_nil_iff]
    intro w hw
    obtain ⟨h33, -, -⟩ := tail_writes ht r w hw
    simp only [scanIdPred, Bool.and_eq_true, beq_iff_eq, not_and]
    intro h0
    exact absurd h0 (by omega)
  rw [hnil, List.append_nil]

theorem rowSeq_length : ∀ (s n : Nat), (rowSeq s n).length = n := by
  intro s n
  induction n generalizing s with
  | zero => rfl
  | succ n ih => rw [rowSeq, List.length_cons, ih]

/-- The behaviour of the pipeline from `load_json` on (workbook already
created): finalization happens exactly on the `exit_script` paths, a load
failure closes (and therefore commits) a workbook with no table and no
data, and a normalization failure leaves the workbook unclosed with no
artifact. -/
theorem afterCreate_spec (env : RunEnv) :
    ((runAfterCreate env).wbClosed = loadFinalizes env) ∧
    ((runAfterCreate env).artifact.isSome = (runAfterCreate env).wbClosed) ∧
    (∀ e, env.loadResult = Except.error e →
      (runAfterCreate env).exitCode = e.code ∧ (runAfterCreate env).exitCode ≠ 0 ∧
      (runAfterCreate env).artifact = some (emptyArtifact env.args.customer)) ∧
    (∀ scans, env.loadResult = Except.ok scans →
      (writeScansLoop scans 0).2 = false →
      (runAfterCreate env).wbClosed = false ∧ (runAfterCreate env).artifact = none) := by
  cases hlr : env.loadResult with
  | error e =>
    refine ⟨?_, ?_, ?_, ?_⟩
    · simp [runAfterCreate, loadFinalizes, hlr]
    · simp [runAfterCreate, hlr]
    · intro e2 he
      injection he with he2
      subst he2
      refine ⟨by simp [runAfterCreate, hlr], ?_, by simp [runAfterCreate, hlr]⟩
      simp only [runAfterCreate, hlr]
      cases e <;> decide
    · intro scans hs
      exact absurd hs (by simp)
  | ok scans =>
    cases hloop : (writeScansLoop scans 0).2 with
    | true =>
      refine ⟨?_, ?_, ?_, ?_⟩
      · simp [runAfterCreate, loadFinalizes, hlr, hloop]
      · simp [runAfterCreate, hlr, hloop]
      · intro e he
        exact absurd he (by simp)
      · intro scans2 hs hl2
        injection hs with hs2
        subst hs2
        rw [hloop] at hl2
        exact absurd hl2 (by simp)
    | false =>
      refine ⟨?_, ?_, ?_, ?_⟩
      · simp [runAfterCreate, loadFinalizes, hlr, hloop]
      · simp [runAfterCreate, hlr, hloop]
      · intro e he
        exact absurd he (by simp)
      · intro scans2 hs hl2
        simp [runAfterCreate, hlr, hloop]

theorem writeScansLoop_spec :
    ∀ (scans : List ScanRecord) (i : Nat),
      (writeScansLoop scans i).2 = true →
      ((writeScansLoop scans i).1.filter scanIdPred).map WriteOp.row =
          rowSeq (i + TABLE_TOP_ROWS) scans.length ∧
        ∀ w ∈ (writeScansLoop scans i).1,
          i + TABLE_TOP_ROWS ≤ w.row ∧ w.row < i + TABLE_TOP_ROWS + scans.length := by
  intro scans
  induction scans with
  | nil =>
    intro i h
    exact ⟨rfl, by intro w hw; exact absurd hw (List.not_mem_nil w)⟩
  | cons s rest ih =>
    intro i h
    cases hc : convert_json_scan s init_lang_columns with
    | none =>
      simp [writeScansLoop, hc] at h
    | some row =>
      simp only [writeScansLoop, hc] at h ⊢
      obtain ⟨ha, hb⟩ := ih (i + 1) h
      constructor
      · rw [List.filter_append, List.map_append, row_scanId _ hc, ha,
          List.length_cons, rowSeq]
        have harg : i + 1 + TABLE_TOP_ROWS = i + TABLE_TOP_ROWS + 1 := by omega
        rw [harg]
        rfl
      · intro w hw
        rcases List.mem_append.mp hw with h1 | h1
        · have hr := rowWrites_row w h1
          rw [List.length_cons]
          omega
        · have hr := hb w h1
          rw [List.length_cons]
          omega


/-! ### Claim theorems -/

/-- C1 (code behaviour at the failing input): a record set containing a
record that references the language `Fortran`, which the registry does not
contain, makes normalization fail and aborts the run — the row loop stops,
the summary is never written, the workbook is never closed and no report
artifact is produced — but the `except Exception` handler in `cxsi` merely
logs the error and returns, so the process completes with exit status 0,
not the non-zero status the specification requires. -/
theorem c1_unknown_language_zero_exit :
    List.lookup ("Fortran") init_lang_columns = none ∧
    convert_json_scan fortranScan init_lang_columns = none ∧
    (runCxsi envFortran).exitCode = 0 ∧
    (runCxsi envFortran).summaryWritten = false ∧
    (runCxsi envFortran).wbClosed = false ∧
    (runCxsi envFortran).artifact = none :=
  ⟨rfl, rfl, rfl, rfl, rfl, rfl⟩

/-- C2: the `ScanDuration` column (index 17 of the table schema) is bound
to the row-relative formula
`=IF([@ScanCompletedOn]>0,[@ScanCompletedOn]-[@ScanRequestedOn],0)` (not a
materialized value — the normalizer writes no cell at column 17), and that
formula evaluates to `completed - requested` when the completion timestamp
is greater than 0 and to 0 otherwise, for every row environment. -/
theorem c2_duration_formula :
    (scansColumns[17]?).map ColumnDef.header = some ("ScanDuration") ∧
    (scansColumns[17]?).bind ColumnDef.formula =
      some ("=IF([@ScanCompletedOn]>0,[@ScanCompletedOn]-[@ScanRequestedOn],0)") ∧
    (scansColumns[17]?).bind ColumnDef.formula = some scanDurationF.renderTop ∧
    (∀ env : String → ℚ, scanDurationF.eval env =
      if 0 < env ("ScanCompletedOn") then
        env ("ScanCompletedOn") - env ("ScanRequestedOn") else 0) ∧
    (∀ (scan : ScanRecord) (row : ScanRow),
      convert_json_scan scan init_lang_columns = some row →
      ∀ p ∈ row, p.2.col ≠ 17) := by
  refine ⟨rfl, rfl, rfl, ?_, ?_⟩
  · intro env
    by_cases h : 0 < env ("ScanCompletedOn")
    · rw [if_pos h]
      simp [CellFormula.eval, h]
    · rw [if_neg h]
      simp [CellFormula.eval, h]
  · intro scan row h p hp
    obtain ⟨tail, ho, ht, -⟩ := convert_structure scan row h
    rw [ho] at hp
    rcases List.mem_append.mp hp with h1 | h1
    · rcases fixedColInts_spec _ (mem_fixedCells_col h1) with ⟨ha, hb⟩ | ⟨ha, hb⟩ <;> omega
    · obtain ⟨-, lc, hl, hc⟩ := ht p h1
      have hpcol : p.2.col = lc.col := by rw [hc]
      rcases reg_cols _ (lookup_mem hl) with hneg | ⟨h33, h51⟩
      · have hn : lc.col = -1 := hneg
        rw [hpcol, hn]
        decide
      · have h33b : (33 : Int) ≤ lc.col := h33
        rw [hpcol]
        omega

/-- A concrete row environment for evaluating the duration formula. -/
def sampleEnv : String → ℚ := fun s =>
  if s == ("ScanCompletedOn") then 7 else if s == ("ScanRequestedOn") then 2 else 0

/-- C2 witness: evaluating the `ScanDuration` formula on a concrete row
with completion serial 7 and request serial 2 yields 5. -/
theorem c2_duration_formula_witness : scanDurationF.eval sampleEnv = 5 := by
  have h1 : sampleEnv ("ScanCompletedOn") = 7 := rfl
  have h2 : sampleEnv ("ScanRequestedOn") = 2 := rfl
  rw [c2_duration_formula.2.2.2.1 sampleEnv, h1, h2]
  norm_num

/-- C5 counterexample: on the concrete record set `[noLangScan]` (a valid
record set whose records use no language at all) the claimed column count
`33 + K` with `K` the number of tracked languages used in the data is 33,
but the schema builder emits 52 columns — the language columns are not
filtered by usage in the data. -/
theorem c5_counterexample :
    scansColumns.length = 52 ∧
    33 + usedTrackedLangCount [noLangScan] = 33 ∧
    scansColumns.length ≠ 33 + usedTrackedLangCount [noLangScan] := by
  refine ⟨rfl, rfl, ?_⟩
  have h1 : scansColumns.length = 52 := rfl
  have h2 : usedTrackedLangCount [noLangScan] = 0 := rfl
  rw [h1, h2]
  decide

/-- C5 (amended): for every input record set the table sheet has
`33 + K` columns where `K` is the number of registry languages with a
valid (non-sentinel) column index — 19, hence 52 columns — independent of
which languages occur in the data. -/
theorem c5_amended_column_count (_scans : List ScanRecord) :
    scansColumns.length =
      33 + (init_lang_columns.filter fun p => p.2.col > -1).length ∧
    scansColumns.length = 52 :=
  ⟨rfl, rfl⟩

/-- C5 witness: the amended count at the concrete empty record set. -/
theorem c5_amended_column_count_witness :
    scansColumns.length =
      33 + (init_lang_columns.filter fun p => p.2.col > -1).length ∧
    scansColumns.length = 52 :=
  c5_amended_column_count []

/-- C6: when the output target exists and overwrite is not permitted, the
run aborts with the output-conflict exit status 1 before any sheet is
created and before anything is written: no workbook object exists, no
sheet is created, no data write happens and no artifact is produced. -/
theorem c6_output_conflict (env : RunEnv) (hex : env.fileExists = true)
    (hf : env.args.force = false) :
    (runCxsi env).exitCode = 1 ∧ (runCxsi env).exitCode ≠ 0 ∧
    (runCxsi env).wbCreated = false ∧ (runCxsi env).sheetsCreated = [] ∧
    (runCxsi env).scansDataWrites = [] ∧ (runCxsi env).artifact = none := by
  have hrun : runCxsi env = ⟨1, false, false, [], [], false, none⟩ := by
    simp [runCxsi, hex, hf]
  rw [hrun]
  exact ⟨rfl, by decide, rfl, rfl, rfl, rfl⟩

/-- C6 witness: the conflict abort at a concrete environment. -/
theorem c6_output_conflict_witness :
    (runCxsi envConflict).exitCode = 1 ∧ (runCxsi envConflict).exitCode ≠ 0 ∧
    (runCxsi envConflict).wbCreated = false ∧
    (runCxsi envConflict).sheetsCreated = [] ∧
    (runCxsi envConflict).scansDataWrites = [] ∧
    (runCxsi envConflict).artifact = none :=
  c6_output_conflict envConflict rfl rfl

/-- C7 counterexample: a run whose data file is missing aborts with exit
status 2, yet closes the workbook — committing an artifact at the output
path that contains the two sheets but no table, no data rows and no
summary.  An aborted run therefore leaves a partially written artifact
behind, contradicting the claimed commit-or-discard discipline. -/
theorem c7_counterexample :
    (runCxsi envLoadFail).exitCode = 2 ∧ (runCxsi envLoadFail).exitCode ≠ 0 ∧
    (runCxsi envLoadFail).wbClosed = true ∧
    (runCxsi envLoadFail).artifact = some (emptyArtifact ("ACME")) ∧
    (emptyArtifact ("ACME")).scansTable = none ∧
    (emptyArtifact ("ACME")).scansData = [] ∧
    (emptyArtifact ("ACME")).summaryWrites = [] :=
  ⟨rfl, by decide, rfl, rfl, rfl, rfl, rfl⟩

/-- C7 (amended): the workbook resource is finalized exactly on the exit
paths that reach `exit_script` after workbook creation — success and
load-failure aborts — and an artifact is committed exactly then.  A
load-failure abort exits non-zero but commits an empty (table-less,
data-less) artifact at the output path rather than discarding it, and an
abort caused by a record-normalization exception leaves the workbook
unfinalized, so no artifact at all is produced on that path. -/
theorem c7_amended_finalization (env : RunEnv) :
    ((runCxsi env).wbClosed = (wbPasses env && loadFinalizes env)) ∧
    ((runCxsi env).artifact.isSome = (runCxsi env).wbClosed) ∧
    (∀ e, env.loadResult = Except.error e → wbPasses env = true →
      (runCxsi env).exitCode = e.code ∧ (runCxsi env).exitCode ≠ 0 ∧
      (runCxsi env).artifact = some (emptyArtifact env.args.customer)) ∧
    (∀ scans, env.loadResult = Except.ok scans → wbPasses env = true →
      (writeScansLoop scans 0).2 = false →
      (runCxsi env).wbClosed = false ∧ (runCxsi env).artifact = none) := by
  obtain ⟨⟨cust, force⟩, fe, ro, lr, t1, t2⟩ := env
  cases fe <;> cases force <;> cases ro <;>
    first
      | exact ⟨rfl, rfl, fun e he hw => Bool.noConfusion hw,
          fun scans hs hw hloop => Bool.noConfusion hw⟩
      | exact ⟨(afterCreate_spec _).1, (afterCreate_spec _).2.1,
          fun e he hw => (afterCreate_spec _).2.2.1 e he,
          fun scans hs hw hloop => (afterCreate_spec _).2.2.2 scans hs hloop⟩

/-- C7 witness: on the concrete normalization-failure run the workbook is
never finalized and no artifact is committed. -/
theorem c7_amended_finalization_witness :
    (runCxsi envFortran).wbClosed = false ∧ (runCxsi envFortran).artifact = none :=
  (c7_amended_finalization envFortran).2.2.2 [fortranScan] rfl rfl rfl

/-- C9: the transform is deterministic — two runs on the same record set
and customer with overwrite permitted produce identical outcomes
(identical column definitions, formula strings, formats, table ranges,
per-record cell writes and summary writes), whatever the clock readings
and whether or not the output file already existed. -/
theorem c9_deterministic (cust : String) (scans : List ScanRecord)
    (fe1 fe2 : Bool) (t1 t2 u1 u2 : Nat) :
    runCxsi ⟨⟨cust, true⟩, fe1, true, Except.ok scans, t1, u1⟩ =
    runCxsi ⟨⟨cust, true⟩, fe2, true, Except.ok scans, t2, u2⟩ := by
  cases fe1 <;> cases fe2 <;> rfl

/-- C9 witness: two concrete runs differing in prior file existence and
timer readings coincide. -/
theorem c9_deterministic_witness :
    runCxsi ⟨⟨("ACME"), true⟩, true, true, Except.ok [sampleScan], 5, 6⟩ =
    runCxsi ⟨⟨("ACME"), true⟩, false, true, Except.ok [sampleScan], 7, 8⟩ :=
  c9_deterministic ("ACME") [sampleScan] true false 5 7 6 8

/-- The sample record normalizes to `sampleRow`. -/
theorem sampleRow_eq :
    convert_json_scan sampleScan init_lang_columns = some sampleRow := rfl

/-- C3: for a record set of size `N` in which every record normalizes, the
`Scans` sheet receives exactly `N` data rows, one per record in input
order at consecutive sheet rows starting directly below the header
(zero-based rows `TABLE_TOP_ROWS .. TABLE_TOP_ROWS + N - 1`, inside the
named table range `A2:AX(2+N)` whose data region is exactly those rows),
and the summary total-scans statistic is the formula
`=COUNT(AllScans[ScanId])`, whose evaluation — the count of numeric cells
in the `ScanId` column of the data — is `N`. -/
theorem c3_row_count_and_total (scans : List ScanRecord) (cust : String)
    (hok : (writeScansLoop scans 0).2 = true) :
    ((writeScansLoop scans 0).1.filter scanIdPred).map WriteOp.row =
        rowSeq TABLE_TOP_ROWS scans.length ∧
    countNumeric (writeScansLoop scans 0).1 0 = scans.length ∧
    (∀ w ∈ (writeScansLoop scans 0).1,
      TABLE_TOP_ROWS ≤ w.row ∧ w.row < TABLE_TOP_ROWS + scans.length) ∧
    table_range scans.length = ("A2:AX") ++ toString (TABLE_TOP_ROWS + scans.length) ∧
    (⟨6, 2, CellValue.formula scansCountFormula, none⟩ : SummaryWrite) ∈
      summaryRows cust ∧
    scansCountFormula = ("=COUNT(AllScans[ScanId])") := by
  obtain ⟨ha, hb⟩ := writeScansLoop_spec scans 0 hok
  rw [Nat.zero_add] at ha
  refine ⟨ha, ?_, ?_, rfl, ?_, rfl⟩
  · have hlen := congrArg List.length ha
    rw [List.length_map, rowSeq_length] at hlen
    exact hlen
  · intro w hw
    have := hb w hw
    omega
  · exact List.mem_cons_of_mem _ (by decide)

/-- C3 witness: the single-record set `[sampleScan]`. -/
theorem c3_row_count_and_total_witness :
    ((writeScansLoop [sampleScan] 0).1.filter scanIdPred).map WriteOp.row =
        rowSeq TABLE_TOP_ROWS [sampleScan].length ∧
    countNumeric (writeScansLoop [sampleScan] 0).1 0 = [sampleScan].length ∧
    (∀ w ∈ (writeScansLoop [sampleScan] 0).1,
      TABLE_TOP_ROWS ≤ w.row ∧ w.row < TABLE_TOP_ROWS + [sampleScan].length) ∧
    table_range [sampleScan].length =
      ("A2:AX") ++ toString (TABLE_TOP_ROWS + [sampleScan].length) ∧
    (⟨6, 2, CellValue.formula scansCountFormula, none⟩ : SummaryWrite) ∈
      summaryRows ("ACME") ∧
    scansCountFormula = ("=COUNT(AllScans[ScanId])") :=
  c3_row_count_and_total [sampleScan] ("ACME") rfl

/-- C4: a record whose usage list resolves entirely in the registry but
contains an untracked language `l` (sentinel column -1) normalizes
successfully; the normalized row's entry for `l` carries the sentinel
column, and every cell the sheet writer actually stores comes from a cell
other than `l`'s with a non-negative column — the untracked language
produces no write into any sheet column. -/
theorem c4_untracked_language (scan : ScanRecord) (l : String) (lc : LangCol)
    (hall : ∀ x ∈ scan.ScannedLanguages,
      (List.lookup x init_lang_columns).isSome = true)
    (hmem : l ∈ scan.ScannedLanguages)
    (hlc : List.lookup l init_lang_columns = some lc)
    (hcol : lc.col = -1) :
    (convert_json_scan scan init_lang_columns).isSome = true ∧
    ∀ row, convert_json_scan scan init_lang_columns = some row →
      (∀ p ∈ row, p.1 = l → p.2.col = -1) ∧
      (∀ (r : Nat), ∀ w ∈ rowWrites r row,
        ∃ p ∈ row, p.1 ≠ l ∧ 0 ≤ p.2.col ∧ w.col = p.2.col.toNat) := by
  refine ⟨addLangs_total _ _ _ hall, ?_⟩
  intro row h
  obtain ⟨tail, ho, ht, -⟩ := convert_structure scan row h
  have hsentinel : ∀ p ∈ row, p.1 = l → p.2.col = -1 := by
    intro p hp hpl
    rcases List.mem_append.mp (ho ▸ hp) with h1 | h1
    · exact absurd (hpl ▸ mem_fixedCells_key h1) (reg_not_fixed _ (lookup_mem hlc))
    · obtain ⟨-, lc2, hl2, hc2⟩ := ht p h1
      rw [hpl] at hl2
      have he : lc2 = lc := Option.some.inj (hl2.symm.trans hlc)
      have hpc : p.2.col = lc2.col := by rw [hc2]
      rw [hpc, he, hcol]
  refine ⟨hsentinel, ?_⟩
  intro r w hw
  obtain ⟨p, hp, hv, h0, hlt, hfw⟩ := rowWrites_origin hw
  refine ⟨p, hp, ?_, h0, by rw [hfw]⟩
  intro hpl
  have := hsentinel p hp hpl
  rw [this] at h0
  exact absurd h0 (by norm_num)

/-- C4 witness: the record whose only language is the untracked
`Unknown`. -/
theorem c4_untracked_language_witness :
    (convert_json_scan unknownOnlyScan init_lang_columns).isSome = true ∧
    ∀ row, convert_json_scan unknownOnlyScan init_lang_columns = some row →
      (∀ p ∈ row, p.1 = ("Unknown") → p.2.col = -1) ∧
      (∀ (r : Nat), ∀ w ∈ rowWrites r row,
        ∃ p ∈ row, p.1 ≠ ("Unknown") ∧ 0 ≤ p.2.col ∧ w.col = p.2.col.toNat) :=
  c4_untracked_language unknownOnlyScan ("Unknown") ⟨-1, 0⟩ (by decide)
    (by decide) rfl rfl

/-- C8: for a successfully normalized record and a tracked registry
language `L` (column index `lc.col ≥ 0`): if the record's usage list
contains `L`, the row's writes include the presence flag 1 in `L`'s
column; if it does not, no write of that row lands in `L`'s column. -/
theorem c8_language_flags (scan : ScanRecord) (row : ScanRow)
    (h : convert_json_scan scan init_lang_columns = some row)
    (L : String) (lc : LangCol)
    (hL : List.lookup L init_lang_columns = some lc) (htr : 0 ≤ lc.col) :
    (L ∈ scan.ScannedLanguages →
      ∀ r : Nat, (⟨r, lc.col.toNat, CellValue.num 1⟩ : WriteOp) ∈ rowWrites r row) ∧
    (L ∉ scan.ScannedLanguages →
      ∀ (r : Nat), ∀ w ∈ rowWrites r row, w.col ≠ lc.col.toNat) := by
  obtain ⟨tail, ho, ht, hcov⟩ := convert_structure scan row h
  have hlc_range : 33 ≤ lc.col ∧ lc.col ≤ 51 := by
    rcases reg_cols _ (lookup_mem hL) with hneg | hpos
    · have hn : lc.col = -1 := hneg
      omega
    · exact ⟨hpos.1, hpos.2⟩
  constructor
  · intro hmem r
    obtain ⟨q, hq, hqk⟩ := hcov L hmem
    obtain ⟨-, lc2, hl2, hc2⟩ := ht q hq
    rw [hqk] at hl2
    have hlc2 : lc2 = lc := Option.some.inj (hl2.symm.trans hL)
    have hq_row : q ∈ row := ho ▸ List.mem_append_right _ hq
    have hval : q.2.value ≠ CellValue.blank := by
      rw [hc2]
      intro hx
      cases hx
    have h0 : 0 ≤ q.2.col := by
      rw [hc2, hlc2]
      exact htr
    have hlt : q.2.col < 16384 := by
      rw [hc2, hlc2]
      show lc.col < 16384
      omega
    have hmemw := mem_rowWrites (r := r) hq_row hval h0 hlt
    have hcolq : q.2.col = lc.col := by rw [hc2, hlc2]
    have hvv : q.2.value = CellValue.num 1 := by rw [hc2]
    rw [hcolq, hvv] at hmemw
    exact hmemw
  · intro hnot r w hw
    rw [ho, rowWrites_append] at hw
    rcases List.mem_append.mp hw with h1 | h1
    · have h32 := fixed_writes_col w h1
      omega
    · obtain ⟨p, hp, hv, h0, hlt, hfw⟩ := rowWrites_origin h1
      obtain ⟨hmemp, lc2, hl2, hc2⟩ := ht p hp
      have hpk : p.1 ≠ L := fun he => hnot (he ▸ hmemp)
      have hcol2 : p.2.col = lc2.col := by rw [hc2]
      have h02 : 0 ≤ lc2.col := hcol2 ▸ h0
      have hne : lc2.col ≠ lc.col := by
        intro he
        exact hpk (reg_tracked_inj _ (lookup_mem hl2) _ (lookup_mem hL) h02 htr he)
      rw [hfw]
      show p.2.col.toNat ≠ lc.col.toNat
      rw [hcol2]
      omega

/-- C8 witness: in the sample row, `Java` (column 40, listed) has the
presence flag written, and `Python` (column 46, not listed) receives no
write. -/
theorem c8_language_flags_witness :
    ((⟨TABLE_TOP_ROWS, 40, CellValue.num 1⟩ : WriteOp) ∈
        rowWrites TABLE_TOP_ROWS sampleRow) ∧
    (∀ w ∈ rowWrites TABLE_TOP_ROWS sampleRow, w.col ≠ 46) := by
  constructor
  · exact (c8_language_flags sampleScan sampleRow sampleRow_eq ("Java") ⟨40, 0⟩
      rfl (by decide)).1 (by decide) TABLE_TOP_ROWS
  · exact (c8_language_flags sampleScan sampleRow sampleRow_eq ("Python") ⟨46, 0⟩
      rfl (by decide)).2 (by decide) TABLE_TOP_ROWS

/-- C10: every cell of a successfully normalized row has a column index in
the sentinel/identity/count/language ranges
`{-1} ∪ {0..16} ∪ {26..32} ∪ {33..51}` — in particular the normalizer
never writes into the nine formula-bound columns 17..25, each of which
carries a formula in the table schema — so the bound row formulas are
never overwritten by data. -/
theorem c10_formula_columns_untouched (scan : ScanRecord) (row : ScanRow)
    (h : convert_json_scan scan init_lang_columns = some row) :
    (∀ p ∈ row, p.2.col = -1 ∨ (0 ≤ p.2.col ∧ p.2.col ≤ 16) ∨
      (26 ≤ p.2.col ∧ p.2.col ≤ 32) ∨ (33 ≤ p.2.col ∧ p.2.col ≤ 51)) ∧
    (∀ p ∈ row, ¬(17 ≤ p.2.col ∧ p.2.col ≤ 25)) ∧
    (∀ j : Nat, 17 ≤ j → j ≤ 25 →
      ((scansColumns[j]?).bind ColumnDef.formula).isSome = true) := by
  obtain ⟨tail, ho, ht, -⟩ := convert_structure scan row h
  have hall : ∀ p ∈ row, p.2.col = -1 ∨ (0 ≤ p.2.col ∧ p.2.col ≤ 16) ∨
      (26 ≤ p.2.col ∧ p.2.col ≤ 32) ∨ (33 ≤ p.2.col ∧ p.2.col ≤ 51) := by
    intro p hp
    rw [ho] at hp
    rcases List.mem_append.mp hp with h1 | h1
    · rcases fixedColInts_spec _ (mem_fixedCells_col h1) with ⟨ha, hb⟩ | ⟨ha, hb⟩
      · exact Or.inr (Or.inl ⟨ha, hb⟩)
      · exact Or.inr (Or.inr (Or.inl ⟨ha, hb⟩))
    · obtain ⟨-, lc, hl, hc⟩ := ht p h1
      have hpcol : p.2.col = lc.col := by rw [hc]
      rcases reg_cols _ (lookup_mem hl) with hneg | ⟨h33, h51⟩
      · refine Or.inl ?_
        rw [hpcol]
        exact hneg
      · refine Or.inr (Or.inr (Or.inr ⟨?_, ?_⟩))
        · rw [hpcol]; exact h33
        · rw [hpcol]; exact h51
  refine ⟨hall, ?_, ?_⟩
  · intro p hp hcontra
    rcases hall p hp with h1 | ⟨h1, h2⟩ | ⟨h1, h2⟩ | ⟨h1, h2⟩ <;> omega
  · intro j h1 h2
    interval_cases j <;> rfl

/-- C10 witness: the sample row. -/
theorem c10_formula_columns_untouched_witness :
    (∀ p ∈ sampleRow, p.2.col = -1 ∨ (0 ≤ p.2.col ∧ p.2.col ≤ 16) ∨
      (26 ≤ p.2.col ∧ p.2.col ≤ 32) ∨ (33 ≤ p.2.col ∧ p.2.col ≤ 51)) ∧
    (∀ p ∈ sampleRow, ¬(17 ≤ p.2.col ∧ p.2.col ≤ 25)) ∧
    (∀ j : Nat, 17 ≤ j → j ≤ 25 →
      ((scansColumns[j]?).bind ColumnDef.formula).isSome = true) :=
  c10_formula_columns_untouched sampleScan sampleRow sampleRow_eq
